import Mathlib

/-!
Verification development for the telegram-bot repository.

The Python modules under `utils/` and `handlers/` are shallowly embedded:
pure fragments become Lean functions, in-place mutation becomes explicit
state passing, `random.random()` / `random.randint(...)` draws and the
current clock become explicit parameters, and Python exceptions become
`Except` / branch results.  Probabilities and timestamps are modelled as
rationals, Python strings as Lean strings (the repository snapshot stores
its emoji double-encoded; the embedding uses the intended UTF-8 emoji,
which is what the spec and the tests use as well).
-/

namespace TgBot

/-! ## Python string primitives -/

/-- Python `needle in haystack` substring containment on strings. -/
def pyIn (needle hay : String) : Bool :=
  (List.range (hay.data.length + 1)).any fun i => needle.data.isPrefixOf (hay.data.drop i)

/-- Python `str.lower()`. -/
def pyLower (s : String) : String := s.toLower

/-- Python `lst[-n:]` — the last `n` elements of a list. -/
def lastN {α : Type} (l : List α) (n : ℕ) : List α := l.drop (l.length - n)

/-- Python `s.find(c)`: index of the first occurrence, `-1` if absent. -/
def pyFind (s : List Char) (c : Char) : ℤ :=
  match s.findIdx? (fun d => d = c) with
  | some i => (i : ℤ)
  | none => -1

/-- Python `s.rfind(c)`: index of the last occurrence, `-1` if absent. -/
def pyRfind (s : List Char) (c : Char) : ℤ :=
  match s.reverse.findIdx? (fun d => d = c) with
  | some i => (s.length : ℤ) - 1 - (i : ℤ)
  | none => -1

/-- Python `s[a:b]` for `0 ≤ a ≤ b` (the only case the embedded code reaches). -/
def pySlice (s : List Char) (a b : ℤ) : List Char :=
  (s.take b.toNat).drop a.toNat

/-- Python `round(x, 1)`: x rounded to one decimal digit, modelled over ℚ
(`mkRat`/`Rat.floor` keep the definition kernel-computable;
`mkRat n d` is exactly the rational `n / d`). -/
def round1 (q : ℚ) : ℚ := mkRat (Rat.floor (q * 10 + mkRat 1 2)) 10

/-! ## Python JSON values

`JValue` models the values `json.loads` can produce (and hence the values
the AI-response merging code manipulates).  Python `None` is `JValue.null`. -/

inductive JValue where
  | null
  | bool (b : Bool)
  | num (q : ℚ)
  | str (s : String)
  | arr (elems : List JValue)
  | obj (fields : List (String × JValue))

/-- Python truthiness of a JSON value (`if v:`). -/
def pyTruthy : JValue → Bool
  | .null => false
  | .bool b => b
  | .num q => decide (q ≠ 0)
  | .str s => decide (s ≠ "")
  | .arr l => !l.isEmpty
  | .obj fs => !fs.isEmpty

/-- Python truthiness of `d.get(k)` (`None` for a missing key is falsy). -/
def pyTruthyOpt : Option JValue → Bool
  | none => false
  | some v => pyTruthy v

mutual
/-- Python `==` on JSON values.  `True == 1` style bool/number equality is
modelled; Python dict equality ignores insertion order, which the ordered
`obj` comparison approximates (no claim in this file depends on comparing
two dicts). -/
def pyEq : JValue → JValue → Bool
  | .null, .null => true
  | .bool a, .bool b => a == b
  | .bool a, .num b => (if a then (1 : ℚ) else 0) == b
  | .num a, .bool b => a == (if b then (1 : ℚ) else 0)
  | .num a, .num b => a == b
  | .str a, .str b => a == b
  | .arr a, .arr b => pyEqList a b
  | .obj a, .obj b => pyEqObj a b
  | _, _ => false

def pyEqList : List JValue → List JValue → Bool
  | [], [] => true
  | a :: as, b :: bs => pyEq a b && pyEqList as bs
  | _, _ => false

def pyEqObj : List (String × JValue) → List (String × JValue) → Bool
  | [], [] => true
  | (ka, va) :: as, (kb, vb) :: bs => ka == kb && pyEq va vb && pyEqObj as bs
  | _, _ => false
end

/-- Python `x in lst` membership via `==`. -/
def pyMem (x : JValue) (l : List JValue) : Bool := l.any (fun y => pyEq x y)

/-- Python iteration `for e in v`: lists yield their elements, strings their
one-character substrings, dicts their keys; `None`, booleans and numbers
raise `TypeError`. -/
def pyIter : JValue → Except Unit (List JValue)
  | .arr l => .ok l
  | .str s => .ok (s.data.map fun c => .str (String.mk [c]))
  | .obj fs => .ok (fs.map fun kv => .str kv.1)
  | _ => .error ()

/-- Python `v == "s"` for a string literal on the right: only a str compares
equal to a str. -/
def jvalIsStr (v : JValue) (s : String) : Bool :=
  match v with
  | .str t => t == s
  | _ => false

/-! ## utils/reaction_manager.py — `ReactionManager.choose_reaction`

The cascade of keyword rules, transcribed in source order.  The random
fallback `random.choice(self.config.yaml_config.reaction_system.reaction_types)`
is modelled by the explicit parameter `randChoice`. -/

def humor_keywords : List String := ["lol", "haha", "lmao", "funny", "joke", "😂", "🤣"]

def surprise_keywords : List String := ["wtf", "wow", "omg", "!", "shocking"]

def positive_keywords : List String := ["good", "great", "awesome", "perfect", "nice", "👍"]

def enthusiasm_keywords : List String := ["fire", "amazing", "incredible", "🔥"]

def thinking_keywords : List String := ["hmm", "think", "?", "question"]

def attention_keywords : List String := ["watch", "see", "look", "👀"]

def agreement_keywords : List String := ["100", "exactly", "agree", "true"]

def accuracy_keywords : List String := ["right", "correct", "spot on", "exactly"]

/-- True when some rule of the `choose_reaction` cascade matches the
lower-cased message text. -/
def some_rule_matches (message_text : String) : Bool :=
  let tl := pyLower message_text
  humor_keywords.any (fun w => pyIn w tl) ||
  surprise_keywords.any (fun w => pyIn w tl) ||
  positive_keywords.any (fun w => pyIn w tl) ||
  enthusiasm_keywords.any (fun w => pyIn w tl) ||
  thinking_keywords.any (fun w => pyIn w tl) ||
  attention_keywords.any (fun w => pyIn w tl) ||
  agreement_keywords.any (fun w => pyIn w tl) ||
  accuracy_keywords.any (fun w => pyIn w tl)

/-- `ReactionManager.choose_reaction`.  `randChoice` stands for the value
`random.choice(reaction_types)` would return on this call. -/
def choose_reaction (randChoice : String) (message_text : String) : String :=
  let text_lower := pyLower message_text
  if humor_keywords.any (fun w => pyIn w text_lower) then "😂"
  else if surprise_keywords.any (fun w => pyIn w text_lower) then "😱"
  else if positive_keywords.any (fun w => pyIn w text_lower) then "👍"
  else if enthusiasm_keywords.any (fun w => pyIn w text_lower) then "🔥"
  else if thinking_keywords.any (fun w => pyIn w text_lower) then "🤔"
  else if attention_keywords.any (fun w => pyIn w text_lower) then "👀"
  else if agreement_keywords.any (fun w => pyIn w text_lower) then "💯"
  else if accuracy_keywords.any (fun w => pyIn w text_lower) then "🎯"
  else randChoice

/-! ## utils/profile_manager.py — data model

The dataclasses, with Python dicts as association lists.  JSON object keys
are strings; `relationships` is declared (and used) with `int` keys, so its
keys are modelled by `PyKey`, which can hold either the original `int` key
or the string key produced by a `json.dump`/`json.load` round trip. -/

inductive PyKey where
  | int (n : ℤ)
  | str (s : String)
deriving DecidableEq

structure SpeakingStyle where
  tone : String := "neutral"
  vocabulary_level : String := "medium"
  emoji_usage : String := "moderate"
  message_length : String := "medium"
  typo_frequency : String := "low"
deriving DecidableEq

structure UserWeaknesses where
  technical : List String := []
  personal : List String := []
  social : List String := []
deriving DecidableEq

structure UserPatterns where
  common_mistakes : List String := []
  repeated_behaviors : List String := []
  contradictions : List String := []
deriving DecidableEq

structure ReactionPatterns where
  favorite_reactions : List (String × ℤ) := []
  reaction_targets : List String := []
  emotional_responses : List (String × ℤ) := []
  total_reactions : ℤ := 0
deriving DecidableEq

structure RoastHistory where
  successful_roasts : ℤ := 0
  topics_hit : List String := []
  reactions : String := "unknown"
  last_roasted : Option String := none
deriving DecidableEq

structure UserProfile where
  user_id : ℤ
  username : String := ""
  first_name : String := ""
  last_name : String := ""
  first_seen : String := ""
  last_seen : String := ""
  message_count : ℤ := 0
  chats : List ℤ := []
  topics : List (String × ℤ) := []
  speaking_style : SpeakingStyle := {}
  interests : List String := []
  humor_type : String := "unknown"
  weaknesses : UserWeaknesses := {}
  embarrassing_moments : List String := []
  complaint_topics : List String := []
  patterns : UserPatterns := {}
  relationships : List (PyKey × String) := []
  language_preference : String := "en"
  roast_history : RoastHistory := {}
  reaction_patterns : ReactionPatterns := {}
deriving DecidableEq

/-- In-memory/on-disk state of a `ProfileManager`: the `self.profiles`
cache and the `profiles/users/user_<id>.json` files.  A disk entry stores
the profile as it will be recovered by `json.load` + `UserProfile.from_dict`
(see `profile_json_round_trip`). -/
structure ProfileManagerState where
  profiles : List (ℤ × UserProfile) := []
  disk : List (ℤ × UserProfile) := []
deriving DecidableEq

/-- The attributes a `ProfileManager` instance actually has: the methods of
`class ProfileManager` plus the instance attributes set in `__init__`.
Transcribed from the class body; any other attribute access raises
`AttributeError`. -/
def profileManagerAttrs : List String :=
  ["profile_directory", "profiles", "chat_metadata", "users_dir", "chats_dir",
   "_get_user_profile_path", "_get_chat_metadata_path",
   "load_profile", "save_profile", "update_profile_from_message",
   "enrich_profile_with_ai", "get_profile_summary", "get_merged_context",
   "track_reaction", "record_roast", "save_all_profiles", "get_profile_size_kb"]

/-! ## utils/reaction_analytics.py — `ReactionAnalytics` -/

/-- One element of the list `_get_recent_reactions` is expected to return:
a dict with `user_id` and `emoji` entries. -/
structure ReactionData where
  user_id : ℤ
  emoji : String
deriving DecidableEq

/-- The fixed positive-emoji membership set of `_classify_emoji_sentiment`. -/
def analytics_positive_emojis : List String :=
  ["👍", "❤️", "🔥", "😊", "😂", "🎉", "✅", "💯", "😄", "😍", "🥰", "🤗"]

/-- The fixed negative-emoji membership set of `_classify_emoji_sentiment`. -/
def analytics_negative_emojis : List String :=
  ["👎", "😠", "😢", "💔", "❌", "😞", "😔", "😕", "😣", "😖"]

/-- `ReactionAnalytics._classify_emoji_sentiment`. -/
def classify_emoji_sentiment (emoji : String) : String :=
  if emoji ∈ analytics_positive_emojis then "positive"
  else if emoji ∈ analytics_negative_emojis then "negative"
  else "neutral"

/-- `ReactionAnalytics._determine_overall_mood`. -/
def determine_overall_mood (positive_pct negative_pct neutral_pct : ℚ) : String :=
  if positive_pct > 60 then "Very Positive"
  else if positive_pct > 40 then "Positive"
  else if negative_pct > 40 then "Negative"
  else if positive_pct > 25 then "Mixed"
  else "Neutral"

/-- The mood-analysis result dict.  The human-readable `message` entry
(`_generate_mood_insight`, pure string formatting) is not modelled; no
claim constrains it. -/
structure MoodData where
  overall_mood : String
  positive_percentage : ℚ
  negative_percentage : ℚ
  neutral_percentage : ℚ
  active_users : ℕ
  recent_reactions : ℕ
deriving DecidableEq

/-- `ReactionAnalytics._get_empty_mood_data` (without the `message` entry). -/
def get_empty_mood_data : MoodData :=
  { overall_mood := "Unknown"
    positive_percentage := 0
    negative_percentage := 0
    neutral_percentage := 0
    active_users := 0
    recent_reactions := 0 }

/-- The body of `ReactionAnalytics.get_group_mood` as a function of the
reaction list its `_get_recent_reactions` call produced.  Percentages are
computed over ℚ; `round(…, 1)` is `round1`; the overall mood is determined
from the unrounded percentages, exactly as in the source. -/
def get_group_mood_core (recent_reactions : List ReactionData) : MoodData :=
  if recent_reactions.isEmpty then get_empty_mood_data
  else
    let total_reactions : ℕ := recent_reactions.length
    let pos : ℕ := recent_reactions.countP fun r => classify_emoji_sentiment r.emoji = "positive"
    let neg : ℕ := recent_reactions.countP fun r => classify_emoji_sentiment r.emoji = "negative"
    let neu : ℕ := recent_reactions.countP fun r => classify_emoji_sentiment r.emoji = "neutral"
    let positive_pct : ℚ := mkRat (pos : ℤ) total_reactions * 100
    let negative_pct : ℚ := mkRat (neg : ℤ) total_reactions * 100
    let neutral_pct : ℚ := mkRat (neu : ℤ) total_reactions * 100
    let overall_mood := determine_overall_mood positive_pct negative_pct neutral_pct
    let active_users : ℕ := ((recent_reactions.map fun r => r.user_id).dedup).length
    { overall_mood := overall_mood
      positive_percentage := round1 positive_pct
      negative_percentage := round1 negative_pct
      neutral_percentage := round1 neutral_pct
      active_users := active_users
      recent_reactions := total_reactions }

/-- `ReactionAnalytics._get_recent_reactions`.  The body is
`try: return self.profile_manager.get_recent_chat_reactions(chat_id, hours)`
with `except Exception: … return []`.  `ProfileManager` defines no
attribute `get_recent_chat_reactions` (see `profileManagerAttrs`), so the
call raises `AttributeError` and the handler returns the empty list. -/
def analytics_get_recent_reactions (_pm : ProfileManagerState) (_chat_id : ℤ)
    (_hours : ℤ) : List ReactionData :=
  if profileManagerAttrs.contains "get_recent_chat_reactions" then
    []  -- dead branch: the method does not exist, so there is no body to embed
  else
    []  -- the AttributeError is caught and an empty list returned

/-- `ReactionAnalytics.get_group_mood` as run by the program: the reaction
fetch goes through `analytics_get_recent_reactions` with the 24-hour
look-back window. -/
def analytics_get_group_mood (pm : ProfileManagerState) (chat_id : ℤ) : MoodData :=
  get_group_mood_core (analytics_get_recent_reactions pm chat_id 24)

/-! ## utils/profile_manager.py — persistence and updates -/

/-- Python dict assignment `d[k] = v`, modelled so that `List.lookup` finds
the newest binding. -/
def dictSet {α : Type} (l : List (ℤ × α)) (k : ℤ) (v : α) : List (ℤ × α) :=
  (k, v) :: l

/-- How a `json.dump` of a dict key comes back from `json.load`:
non-string keys are serialized as their string form, string keys survive. -/
def jsonKeyString : PyKey → String
  | .int n => toString n
  | .str s => s

/-- The effect of `json.dump(profile.to_dict(), …)` followed by
`json.load` + `UserProfile.from_dict` on a profile.  Strings, ints, lists,
string-keyed dicts and the nested dataclasses are reproduced exactly;
the int-keyed `relationships` dict comes back with stringified keys, and
`from_dict` performs no key conversion. -/
def profile_json_round_trip (p : UserProfile) : UserProfile :=
  { p with relationships :=
      p.relationships.map fun kv => (PyKey.str (jsonKeyString kv.1), kv.2) }

/-- `ProfileManager.save_profile`: a cached profile is dumped to its
`user_<id>.json` file (recoverable as `profile_json_round_trip`); with no
cached profile the call logs a warning and returns `False`. -/
def save_profile (pm : ProfileManagerState) (user_id : ℤ) :
    ProfileManagerState × Bool :=
  match List.lookup user_id pm.profiles with
  | none => (pm, false)
  | some p =>
      ({ pm with disk := dictSet pm.disk user_id (profile_json_round_trip p) }, true)

/-- `self.profiles.clear()` — evict every cached profile (what the
round-trip spec scenario and the unit tests do between save and reload). -/
def profiles_clear (pm : ProfileManagerState) : ProfileManagerState :=
  { pm with profiles := [] }

/-- `ProfileManager.load_profile`: cache hit, else disk load (cached), else
a fresh profile with `first_seen = now` (cached).  `now` stands for
`datetime.utcnow().isoformat()`. -/
def load_profile (pm : ProfileManagerState) (user_id : ℤ) (now : String) :
    UserProfile × ProfileManagerState :=
  match List.lookup user_id pm.profiles with
  | some p => (p, pm)
  | none =>
      match List.lookup user_id pm.disk with
      | some p => (p, { pm with profiles := dictSet pm.profiles user_id p })
      | none =>
          let p : UserProfile := { user_id := user_id, first_seen := now }
          (p, { pm with profiles := dictSet pm.profiles user_id p })

/-! ### utils/profile_manager.py — `update_profile_from_message` -/

structure TgUser where
  id : ℤ
  username : Option String := none
  first_name : Option String := none
  last_name : Option String := none
deriving DecidableEq

structure TgMessage where
  message_id : ℤ := 0
  from_user : Option TgUser := none
  reply_to_from_user_id : Option ℤ := none
  chat_id : ℤ := 0
  text : Option String := none
deriving DecidableEq

/-- Python `'Ѐ' <= char <= 'ӿ'` — the Cyrillic-range test. -/
def is_cyrillic_char (c : Char) : Bool :=
  0x400 ≤ c.toNat && c.toNat ≤ 0x4FF

/-- The profile mutations `update_profile_from_message` performs on the
loaded profile: identity refresh, `message_count += 1`, chat participation,
and the language heuristic (any Cyrillic char ⇒ `"ru"`; otherwise `"en"`
only when the stored preference is the empty string). -/
def profile_update_step (profile : UserProfile) (user : TgUser)
    (message : TgMessage) (now : String) : UserProfile :=
  let profile :=
    { profile with
        username := user.username.getD ""
        first_name := user.first_name.getD ""
        last_name := user.last_name.getD ""
        last_seen := now
        message_count := profile.message_count + 1 }
  let profile :=
    if message.chat_id ∈ profile.chats then profile
    else { profile with chats := profile.chats ++ [message.chat_id] }
  match message.text with
  | none => profile
  | some t =>
      if t.data.any is_cyrillic_char then
        { profile with language_preference := "ru" }
      else if profile.language_preference = "" then
        { profile with language_preference := "en" }
      else profile

/-- `ProfileManager.update_profile_from_message`: no-op without
`message.from_user`; otherwise load (or create) the profile and mutate it
in place via `profile_update_step`. -/
def update_profile_from_message (pm : ProfileManagerState)
    (message : TgMessage) (now : String) : ProfileManagerState :=
  match message.from_user with
  | none => pm
  | some user =>
      let r := load_profile pm user.id now
      let updated := profile_update_step r.1 user message now
      { r.2 with profiles := dictSet r.2.profiles user.id updated }

/-! ### utils/profile_manager.py — `enrich_profile_with_ai`

`EnrichState` captures exactly the profile fields the merge code writes:
`interests`, `weaknesses.technical`, `weaknesses.personal`,
`speaking_style.tone`, `humor_type`, `patterns.common_mistakes` and
`embarrassing_moments`.  List entries are `JValue`s because the merge
appends raw parsed-JSON elements; the profile's pre-existing string entries
embed as `JValue.str`. -/

structure EnrichState where
  interests : List JValue
  technical : List JValue
  personal : List JValue
  tone : JValue
  humor_type : JValue
  common_mistakes : List JValue
  embarrassing_moments : List JValue

/-- The enrichment view of a profile before the merge runs. -/
def enrich_state_of_profile (p : UserProfile) : EnrichState :=
  { interests := p.interests.map .str
    technical := p.weaknesses.technical.map .str
    personal := p.weaknesses.personal.map .str
    tone := .str p.speaking_style.tone
    humor_type := .str p.humor_type
    common_mistakes := p.patterns.common_mistakes.map .str
    embarrassing_moments := p.embarrassing_moments.map .str }

/-- One list-field merge:
`for e in v: if e and e not in cur: cur.append(e)` then `cur = cur[-keep:]`.
Iterating a non-iterable value raises `TypeError` (`Except.error`). -/
def merge_list_field (cur : List JValue) (v : JValue) (keep : ℕ) :
    Except Unit (List JValue) :=
  match pyIter v with
  | .error e => .error e
  | .ok elems =>
      .ok (lastN (elems.foldl
        (fun acc e => if pyTruthy e && !(pyMem e acc) then acc ++ [e] else acc)
        cur) keep)

/-- `if key in analysis:` guard plus the list merge for that key. -/
def list_field_step (cur : List JValue) (v? : Option JValue) (keep : ℕ) :
    Except Unit (List JValue) :=
  match v? with
  | none => .ok cur
  | some v => merge_list_field cur v keep

/-- The merge section of `enrich_profile_with_ai`, applied to a parsed
analysis object.  Fields are processed in source order; a `TypeError`
raised mid-way is caught by the enclosing `except`, which only logs — so
the mutations already performed are kept (`st` at the raise point). -/
def enrich_apply (st0 : EnrichState) (analysis : List (String × JValue)) :
    EnrichState :=
  match list_field_step st0.interests (List.lookup "interests" analysis) 10 with
  | .error _ => st0
  | .ok interests1 =>
  let st1 := { st0 with interests := interests1 }
  match list_field_step st1.technical (List.lookup "technical_weaknesses" analysis) 5 with
  | .error _ => st1
  | .ok technical1 =>
  let st2 := { st1 with technical := technical1 }
  match list_field_step st2.personal (List.lookup "personal_weaknesses" analysis) 5 with
  | .error _ => st2
  | .ok personal1 =>
  let st3 := { st2 with personal := personal1 }
  let st4 :=
    match List.lookup "speaking_tone" analysis with
    | none => st3
    | some v => { st3 with tone := v }
  let st5 :=
    match List.lookup "humor_type" analysis with
    | none => st4
    | some v => { st4 with humor_type := v }
  match list_field_step st5.common_mistakes (List.lookup "common_mistakes" analysis) 5 with
  | .error _ => st5
  | .ok mistakes1 =>
  let st6 := { st5 with common_mistakes := mistakes1 }
  match list_field_step st6.embarrassing_moments (List.lookup "embarrassing_moments" analysis) 5 with
  | .error _ => st6
  | .ok moments1 =>
  { st6 with embarrassing_moments := moments1 }

/-- `enrich_profile_with_ai` after the AI call, as a function of the
`json.loads` outcome on the cleaned response: `none` models a
`JSONDecodeError` (caught, profile untouched); `some analysis` runs the
merge, whose own raises are caught by the enclosing `except` after any
earlier mutations have landed. -/
def enrich_profile_with_ai (st : EnrichState)
    (parsed : Option (List (String × JValue))) : EnrichState :=
  match parsed with
  | none => st
  | some analysis => enrich_apply st analysis

/-! ## config.py — the configuration slices the embedded code reads -/

structure AutonomousCommentingConfig where
  enabled : Bool := true
  min_messages_between_comments : ℤ := 8
  max_messages_between_comments : ℤ := 20
  comment_probability : ℚ := mkRat 3 10
  min_time_between_comments_seconds : ℚ := 120
  use_intelligent_decision : Bool := true
  use_ai_decision : Bool := true
deriving DecidableEq

structure ConversationMonitoringConfig where
  context_window_size : ℤ := 15
deriving DecidableEq

structure YamlConfig where
  autonomous_commenting : AutonomousCommentingConfig := {}
  conversation_monitoring : ConversationMonitoringConfig := {}
  excluded_chats : List ℤ := []
deriving DecidableEq

/-! ## utils/autonomous_commenter.py — `AutonomousCommenter`

Timestamps are rationals (`datetime.utcnow()` becomes a `now` parameter;
`time_since.total_seconds()` becomes subtraction).  Every
`random.randint(min_messages_between_comments, max_messages_between_comments)`
roll and every `random.random()` draw is an explicit parameter. -/

structure ChatState where
  chat_id : ℤ
  messages_since_last_comment : ℤ := 0
  last_comment_time : Option ℚ := none
  next_comment_threshold : ℤ := 10
  recent_messages : List TgMessage := []
  last_autonomous_comment : Option String := none
deriving DecidableEq

/-- `self.chat_states` of an `AutonomousCommenter`. -/
structure CommenterState where
  chat_states : List (ℤ × ChatState) := []
deriving DecidableEq

/-- The attributes an `AutonomousCommenter` instance actually has: the
methods of `class AutonomousCommenter` plus the instance attributes set in
`__init__`.  Transcribed from the class body; any other attribute access
raises `AttributeError`. -/
def autonomousCommenterAttrs : List String :=
  ["config", "profile_manager", "chat_states",
   "_get_chat_state", "add_message", "should_comment",
   "_is_good_time_to_comment", "mark_commented", "generate_comment",
   "_build_comment_prompt", "_parse_comment_response", "get_chat_stats"]

/-- `AutonomousCommenter._get_chat_state`: return the cached state, or
create one whose `next_comment_threshold` is the fresh
`randint(min, max)` roll `croll`. -/
def get_chat_state (cs : CommenterState) (chat_id : ℤ) (croll : ℤ) :
    ChatState × CommenterState :=
  match List.lookup chat_id cs.chat_states with
  | some st => (st, cs)
  | none =>
      let st : ChatState := { chat_id := chat_id, next_comment_threshold := croll }
      (st, { cs with chat_states := dictSet cs.chat_states chat_id st })

/-- `AutonomousCommenter.add_message`: bump the counter and keep the last
`context_window_size` messages. -/
def add_message (cfg : YamlConfig) (cs : CommenterState) (chat_id : ℤ)
    (message : TgMessage) (croll : ℤ) : CommenterState :=
  let r := get_chat_state cs chat_id croll
  let st := r.1
  let context_size := cfg.conversation_monitoring.context_window_size
  let recent := st.recent_messages ++ [message]
  let recent :=
    if (recent.length : ℤ) > context_size then lastN recent context_size.toNat
    else recent
  let st := { st with
      messages_since_last_comment := st.messages_since_last_comment + 1
      recent_messages := recent }
  { r.2 with chat_states := dictSet r.2.chat_states chat_id st }

def ascii_lowercase : List Char :=
  ['a','b','c','d','e','f','g','h','i','j','k','l','m',
   'n','o','p','q','r','s','t','u','v','w','x','y','z']

def trouble_keywords : List String := ["help", "error", "bug", "problem", "why", "how"]

/-- `AutonomousCommenter._is_good_time_to_comment`, transcribed clause by
clause (note the source ends in `return True`, so the heuristic can only
veto when there are no recent messages or the bot was just replied to). -/
def is_good_time_to_comment (st : ChatState) (bot_user_id : ℤ) : Bool :=
  let recent :=
    if st.recent_messages.length ≥ 5 then lastN st.recent_messages 5
    else st.recent_messages
  if recent.isEmpty then false
  else if (lastN recent 2).any (fun m =>
      match m.reply_to_from_user_id with
      | some uid => uid = bot_user_id
      | none => false) then false
  else
    let recent_users :=
      (((recent.filterMap fun m => m.from_user).filter
          fun u => u.id ≠ bot_user_id).map fun u => u.id).dedup
    if recent_users.length ≥ 2 then true
    else if (lastN recent 3).any (fun m =>
        match m.text with
        | some t =>
            let tl := pyLower t
            trouble_keywords.any (fun w => pyIn w tl) ||
            pyIn "???" tl ||
            ascii_lowercase.any (fun c => pyIn (String.mk [c, c, c]) t)
        | none => false) then true
    else true

/-- `AutonomousCommenter.should_comment`.  `now` is the clock at the call,
`u` the `random.random()` draw of the probability check, `reroll` the
`randint` roll used when that check fails, and `croll` the `randint` roll
used if the chat state has to be created. -/
def should_comment (cfg : YamlConfig) (cs : CommenterState)
    (chat_id bot_user_id : ℤ) (now u : ℚ) (reroll croll : ℤ) :
    Bool × CommenterState :=
  let ac := cfg.autonomous_commenting
  if !ac.enabled then (false, cs)
  else if chat_id ∈ cfg.excluded_chats then (false, cs)
  else
    let r := get_chat_state cs chat_id croll
    let st := r.1
    let cs1 := r.2
    if st.messages_since_last_comment < ac.min_messages_between_comments then
      (false, cs1)
    else
      let time_ok :=
        match st.last_comment_time with
        | some t => !(now - t < ac.min_time_between_comments_seconds)
        | none => true
      if !time_ok then (false, cs1)
      else if st.messages_since_last_comment < st.next_comment_threshold then
        (false, cs1)
      else if u > ac.comment_probability then
        let st1 := { st with next_comment_threshold := reroll }
        (false, { cs1 with chat_states := dictSet cs1.chat_states chat_id st1 })
      else if ac.use_intelligent_decision then
        if !is_good_time_to_comment st bot_user_id then (false, cs1)
        else (true, cs1)
      else (true, cs1)

/-- `AutonomousCommenter.mark_commented`: reset the counter, stamp the
time, and re-roll the threshold (`reroll`). -/
def mark_commented (cs : CommenterState) (chat_id : ℤ) (now : ℚ)
    (croll reroll : ℤ) : CommenterState :=
  let r := get_chat_state cs chat_id croll
  let st := { r.1 with
      messages_since_last_comment := 0
      last_comment_time := some now
      next_comment_threshold := reroll }
  { r.2 with chat_states := dictSet r.2.chat_states chat_id st }

/-! ### Traces of commenter operations (for the threshold invariant) -/

inductive CommenterOp where
  | add_message (chat_id : ℤ) (message : TgMessage) (croll : ℤ)
  | should_comment (chat_id bot_user_id : ℤ) (now u : ℚ) (reroll croll : ℤ)
  | mark_commented (chat_id : ℤ) (now : ℚ) (croll reroll : ℤ)

def commenter_step (cfg : YamlConfig) (cs : CommenterState) :
    CommenterOp → CommenterState
  | .add_message chat_id m croll => add_message cfg cs chat_id m croll
  | .should_comment chat_id bot now u reroll croll =>
      (should_comment cfg cs chat_id bot now u reroll croll).2
  | .mark_commented chat_id now croll reroll =>
      mark_commented cs chat_id now croll reroll

def commenter_run (cfg : YamlConfig) (cs : CommenterState)
    (ops : List CommenterOp) : CommenterState :=
  ops.foldl (commenter_step cfg) cs

/-- `randint(min, max)` always lands in the inclusive configured range. -/
def roll_ok (ac : AutonomousCommentingConfig) (v : ℤ) : Bool :=
  decide (ac.min_messages_between_comments ≤ v) &&
  decide (v ≤ ac.max_messages_between_comments)

/-- Every `randint` roll an operation consumes is in range. -/
def op_rolls_ok (ac : AutonomousCommentingConfig) : CommenterOp → Bool
  | .add_message _ _ croll => roll_ok ac croll
  | .should_comment _ _ _ _ reroll croll => roll_ok ac reroll && roll_ok ac croll
  | .mark_commented _ _ croll reroll => roll_ok ac croll && roll_ok ac reroll

/-- Every tracked chat state's `next_comment_threshold` is inside the
configured inclusive range. -/
def thresholds_in_range (ac : AutonomousCommentingConfig)
    (cs : CommenterState) : Bool :=
  cs.chat_states.all fun kv => roll_ok ac kv.2.next_comment_threshold

/-! ### utils/autonomous_commenter.py — comment-response parsing -/

/-- The dataclass `AutonomousComment`.  Fields hold the raw parsed-JSON
values the success path of `generate_comment` passes to the constructor
(`data.get` of a missing key gives Python `None` = `JValue.null`). -/
structure AutonomousComment where
  text : JValue
  reply_to_message_id : JValue := .null
  target_user_id : JValue := .null
  comment_type : JValue := .str "observation"

/-- The substring `response[start:end]` that `_parse_comment_response`
feeds to `json.loads`: from the first `\x7b` through the last `\x7d`. -/
def candidate_json (response : List Char) : List Char :=
  pySlice response (pyFind response '{') (pyRfind response '}' + 1)

/-- `AutonomousCommenter._parse_comment_response`.  `loads` stands for
`json.loads` restricted to object results (the candidate substring starts
with `\x7b`, so any successful parse is an object); `none` models a raised
parse error, which the `except` swallows. -/
def parse_comment_response (loads : List Char → Option (List (String × JValue)))
    (response : List Char) : Option (List (String × JValue)) :=
  let start := pyFind response '{'
  let stop := pyRfind response '}' + 1
  if start ≥ 0 ∧ stop > start then
    match loads (pySlice response start stop) with
    | none => none
    | some data =>
        if pyTruthyOpt (List.lookup "should_comment" data) &&
           pyTruthyOpt (List.lookup "comment" data) then some data
        else none
  else none

/-- The tail of `AutonomousCommenter.generate_comment`: parse the AI
response; on success build the `AutonomousComment` directly from the parsed
fields, otherwise return `None`. -/
def generate_comment_from_response
    (loads : List Char → Option (List (String × JValue)))
    (response : List Char) : Option AutonomousComment :=
  match parse_comment_response loads response with
  | none => none
  | some data =>
      some { text := (List.lookup "comment" data).getD .null
             reply_to_message_id := (List.lookup "reply_to_message_id" data).getD .null
             target_user_id := (List.lookup "target_user_id" data).getD .null
             comment_type := (List.lookup "type" data).getD (.str "observation") }

/-! ### Modelled from the spec: the mood-probability adjustment

`_adjust_probability_based_on_reactions` is required by
`tests/unit/test_autonomous_commenter_reaction_integration.py` and
described by the spec, but `class AutonomousCommenter` does not define it
(see `autonomousCommenterAttrs`), and `should_comment` compares the draw
against the unadjusted `comment_probability`.  The definitions below
follow the spec's words so the divergence can be stated. -/

/-- Modelled from the spec: the `group_mood` → probability factor
(`"Very Positive" ⇒ ×1.2`, `"Negative" ⇒ ×0.7`, `"Mixed" ⇒ ×0.9`,
anything else ⇒ ×1.0). -/
def mood_probability_factor (mood : String) : ℚ :=
  if mood = "Very Positive" then mkRat 12 10
  else if mood = "Negative" then mkRat 7 10
  else if mood = "Mixed" then mkRat 9 10
  else 1

/-- Modelled from the spec: `_adjust_probability_based_on_reactions`
(absent from the code) — multiply the base probability by the mood factor;
an error while computing the factor (`none`) falls back to the base. -/
def adjust_probability_based_on_reactions (mood : Option String)
    (base : ℚ) : ℚ :=
  match mood with
  | none => base
  | some m => mood_probability_factor m * base

/-! ## handlers/autonomous_handler.py — `check_and_make_autonomous_comment` -/

inductive HandlerEffect where
  | sent
  | marked
  | roasted
deriving DecidableEq

/-- `check_and_make_autonomous_comment` after the early `update.message`
guard, as a state-and-effects function.  `ai_check` stands for the value
`should_comment_ai_check` would return if it existed; `gen_result` for the
outcome of `generate_comment`; `mark_croll`/`mark_reroll` for the
`randint` rolls `mark_commented` would consume.  The whole body runs under
`try: … except Exception: logger.error(…)`, so a raised `AttributeError`
ends the call with no further action. -/
def check_and_make_autonomous_comment (cfg : YamlConfig) (cs : CommenterState)
    (chat_id bot_user_id : ℤ) (now u : ℚ) (reroll croll : ℤ)
    (ai_check : Bool) (gen_result : Option AutonomousComment)
    (mark_croll mark_reroll : ℤ) : CommenterState × List HandlerEffect :=
  let r := should_comment cfg cs chat_id bot_user_id now u reroll croll
  let cs1 := r.2
  if !r.1 then (cs1, [])
  else
    let proceed :=
      if cfg.autonomous_commenting.use_ai_decision then
        if autonomousCommenterAttrs.contains "should_comment_ai_check" then
          -- never taken: `AutonomousCommenter` defines no such attribute
          some ai_check
        else
          -- the call raises AttributeError; the handler's except only logs
          none
      else some true
    match proceed with
    | none => (cs1, [])
    | some false => (cs1, [])
    | some true =>
        match gen_result with
        | none => (cs1, [])
        | some comment =>
            let cs2 := mark_commented cs1 chat_id now mark_croll mark_reroll
            let roast :=
              if pyTruthy comment.target_user_id &&
                 jvalIsStr comment.comment_type "roast" then
                [HandlerEffect.roasted]
              else []
            (cs2, [HandlerEffect.sent, HandlerEffect.marked] ++ roast)

/-! ## Helper lemmas -/

theorem mem_of_lookup_eq_some {α : Type} {l : List (ℤ × α)} {k : ℤ} {v : α}
    (h : List.lookup k l = some v) : (k, v) ∈ l := by
  induction l with
  | nil => simp [List.lookup] at h
  | cons a t ih =>
      obtain ⟨ka, va⟩ := a
      rw [List.lookup] at h
      by_cases hk : k = ka
      · subst hk
        simp only [beq_self_eq_true] at h
        simp only [Option.some.injEq] at h
        subst h
        exact List.mem_cons_self _ _
      · have hk2 : (k == ka) = false := by simpa using hk
        rw [hk2] at h
        exact List.mem_cons_of_mem _ (ih h)

theorem pyFind_eq_neg_one {s : List Char} {c : Char}
    (h : s.contains c = false) : pyFind s c = -1 := by
  unfold pyFind
  have hidx : s.findIdx? (fun d => d = c) = none := by
    rw [List.findIdx?_eq_none_iff]
    intro x hx
    rw [List.contains_eq_any_beq, List.any_eq_false] at h
    have hx2 := h x hx
    simp only [beq_iff_eq] at hx2
    simp only [decide_eq_false_iff_not]
    exact Ne.symm hx2
  rw [hidx]

theorem pyRfind_eq_neg_one {s : List Char} {c : Char}
    (h : s.contains c = false) : pyRfind s c = -1 := by
  unfold pyRfind
  have hidx : s.reverse.findIdx? (fun d => d = c) = none := by
    rw [List.findIdx?_eq_none_iff]
    intro x hx
    rw [List.contains_eq_any_beq, List.any_eq_false] at h
    have hx2 := h x (List.mem_reverse.mp hx)
    simp only [beq_iff_eq] at hx2
    simp only [decide_eq_false_iff_not]
    exact Ne.symm hx2
  rw [hidx]

theorem abs_round1_sub_le (q : ℚ) : |round1 q - q| ≤ 1 / 20 := by
  have h : round1 q = ((round (q * 10) : ℤ) : ℚ) / 10 := by
    unfold round1
    rw [Rat.mkRat_eq_div]
    congr 1
    rw [round_eq]
    have h12 : (mkRat 1 2 : ℚ) = 1 / 2 := by
      rw [Rat.mkRat_eq_div]; norm_num
    rw [h12]
    rfl
  have h2 : |q * 10 - round (q * 10)| ≤ 1 / 2 := abs_sub_round (q * 10)
  have h3 : round1 q - q = -(q * 10 - (round (q * 10) : ℚ)) / 10 := by
    rw [h]; ring
  rw [h3, abs_div, abs_neg, abs_of_pos (by norm_num : (0 : ℚ) < 10)]
  linarith

theorem classify_partition (l : List ReactionData) :
    (l.countP fun r => classify_emoji_sentiment r.emoji = "positive") +
    (l.countP fun r => classify_emoji_sentiment r.emoji = "negative") +
    (l.countP fun r => classify_emoji_sentiment r.emoji = "neutral") = l.length := by
  induction l with
  | nil => simp
  | cons a t ih =>
      have h3 : classify_emoji_sentiment a.emoji = "positive" ∨
          classify_emoji_sentiment a.emoji = "negative" ∨
          classify_emoji_sentiment a.emoji = "neutral" := by
        unfold classify_emoji_sentiment
        split
        · exact Or.inl rfl
        · split
          · exact Or.inr (Or.inl rfl)
          · exact Or.inr (Or.inr rfl)
      simp only [List.countP_cons, List.length_cons]
      rcases h3 with h | h | h <;> simp [h] <;> omega

/-! ## Claim theorems -/

/-- C10: `choose_reaction` is deterministic on any message text matched by
a keyword rule — the random fallback is reached only when no rule matches,
and the first matching rule wins; in particular every run on
`"this is so funny lol"` returns the humor emoji 😂. -/
theorem choose_reaction_keyword_deterministic :
    (∀ (text r1 r2 : String), some_rule_matches text = true →
        choose_reaction r1 text = choose_reaction r2 text) ∧
    (∀ r : String, choose_reaction r "this is so funny lol" = "😂") := by
  constructor
  · intro text r1 r2 h
    simp only [choose_reaction]
    repeat' split
    any_goals rfl
    exfalso
    simp only [some_rule_matches, Bool.or_eq_true, List.any_eq_true] at h
    rcases h with ((((((h | h) | h) | h) | h) | h) | h) | h <;>
      obtain ⟨x, hx, hpx⟩ := h <;> simp_all
  · intro r
    have hh : humor_keywords.any
        (fun w => pyIn w (pyLower "this is so funny lol")) = true := by
      with_unfolding_all decide
    simp only [choose_reaction, hh, if_true]

/-- C10 witness: two runs with different random fallbacks agree on a
keyword-matched text. -/
theorem choose_reaction_keyword_deterministic_witness :
    choose_reaction "👍" "nice joke lol" = choose_reaction "🔥" "nice joke lol" :=
  choose_reaction_keyword_deterministic.1 "nice joke lol" "👍" "🔥"
    (by with_unfolding_all decide)

/-- C2: for every chat id and every state of the profile store,
`ReactionAnalytics.get_group_mood` returns the "Unknown" sentinel: its
reaction fetch calls `ProfileManager.get_recent_chat_reactions`, which
does not exist on `ProfileManager`, so the `AttributeError` is swallowed
inside `_get_recent_reactions`, the fetch yields `[]`, and the
empty-reactions branch is always taken. -/
theorem get_group_mood_always_unknown :
    (∀ (pm : ProfileManagerState) (chat_id : ℤ),
        analytics_get_group_mood pm chat_id = get_empty_mood_data) ∧
    profileManagerAttrs.contains "get_recent_chat_reactions" = false := by
  exact ⟨fun pm chat_id => rfl, rfl⟩

/-- C1 (code bug): `should_comment` compares the uniform draw against the
unmodified base `comment_probability`; the mood-probability adjustment the
spec and the unit tests require (`_adjust_probability_based_on_reactions`)
is not defined on `AutonomousCommenter`.  At a state where every gate has
passed, base probability 1/2, group mood "Very Positive" and draw 11/20,
the code declines to comment although the mood-adjusted probability 3/5
admits the draw. -/
theorem should_comment_ignores_group_mood :
    (should_comment
        { autonomous_commenting :=
            { enabled := true
              min_messages_between_comments := 5
              max_messages_between_comments := 15
              comment_probability := mkRat 1 2
              min_time_between_comments_seconds := 120
              use_intelligent_decision := false
              use_ai_decision := true }
          conversation_monitoring := {}
          excluded_chats := [] }
        { chat_states := [(123456,
            { chat_id := 123456
              messages_since_last_comment := 10
              last_comment_time := none
              next_comment_threshold := 8 })] }
        123456 999999 0 (mkRat 11 20) 9 9).1 = false ∧
    autonomousCommenterAttrs.contains "_adjust_probability_based_on_reactions" = false ∧
    adjust_probability_based_on_reactions (some "Very Positive") (mkRat 1 2) = mkRat 3 5 ∧
    mkRat 11 20 ≤ adjust_probability_based_on_reactions (some "Very Positive") (mkRat 1 2) ∧
    ¬ (mkRat 11 20 ≤ mkRat 1 2) := by
  refine ⟨?_, ?_, ?_, ?_, ?_⟩ <;> with_unfolding_all decide

/-- C5: `get_group_mood` returns the "Unknown" sentinel exactly when the
fetched 24-hour reaction list is empty; when it is non-empty, every
reaction is classified into exactly one of positive/negative/neutral (the
three counts partition the list) and the three reported 1-decimal-rounded
percentages sum to 100 up to the rounding of each. -/
theorem group_mood_sentinel_iff_empty (l : List ReactionData) :
    (get_group_mood_core l = get_empty_mood_data ↔ l = []) ∧
    (l ≠ [] →
      (l.countP fun r => classify_emoji_sentiment r.emoji = "positive") +
      (l.countP fun r => classify_emoji_sentiment r.emoji = "negative") +
      (l.countP fun r => classify_emoji_sentiment r.emoji = "neutral") = l.length ∧
      |(get_group_mood_core l).positive_percentage +
        (get_group_mood_core l).negative_percentage +
        (get_group_mood_core l).neutral_percentage - 100| ≤ 3 / 20) := by
  have hcore : ∀ hne : l ≠ [],
      (get_group_mood_core l).positive_percentage =
        round1 (mkRat ((l.countP fun r => classify_emoji_sentiment r.emoji = "positive") : ℤ) l.length * 100) ∧
      (get_group_mood_core l).negative_percentage =
        round1 (mkRat ((l.countP fun r => classify_emoji_sentiment r.emoji = "negative") : ℤ) l.length * 100) ∧
      (get_group_mood_core l).neutral_percentage =
        round1 (mkRat ((l.countP fun r => classify_emoji_sentiment r.emoji = "neutral") : ℤ) l.length * 100) ∧
      (get_group_mood_core l).recent_reactions = l.length := by
    intro hne
    have hEmpty : l.isEmpty = false := by
      simp [List.isEmpty_iff, hne]
    unfold get_group_mood_core
    rw [hEmpty]
    simp
  constructor
  · constructor
    · intro h
      by_contra hne
      have h1 := (hcore hne).2.2.2
      rw [h] at h1
      have : l.length = 0 := by
        simpa [get_empty_mood_data] using h1.symm
      exact hne (List.eq_nil_of_length_eq_zero this)
    · intro h
      subst h
      rfl
  · intro hne
    refine ⟨classify_partition l, ?_⟩
    obtain ⟨hp, hn, hq, _⟩ := hcore hne
    rw [hp, hn, hq]
    set A := mkRat ((l.countP fun r => classify_emoji_sentiment r.emoji = "positive") : ℤ) l.length * 100 with hA
    set B := mkRat ((l.countP fun r => classify_emoji_sentiment r.emoji = "negative") : ℤ) l.length * 100 with hB
    set C := mkRat ((l.countP fun r => classify_emoji_sentiment r.emoji = "neutral") : ℤ) l.length * 100 with hC
    have hlen : (l.length : ℚ) ≠ 0 := by
      exact_mod_cast Nat.cast_ne_zero.mpr (fun h0 => hne (List.eq_nil_of_length_eq_zero h0))
    have hcnt : ((l.countP fun r => classify_emoji_sentiment r.emoji = "positive") : ℚ) +
        ((l.countP fun r => classify_emoji_sentiment r.emoji = "negative") : ℚ) +
        ((l.countP fun r => classify_emoji_sentiment r.emoji = "neutral") : ℚ) =
        (l.length : ℚ) := by
      exact_mod_cast classify_partition l
    have hsum : A + B + C = 100 := by
      rw [hA, hB, hC, Rat.mkRat_eq_div, Rat.mkRat_eq_div, Rat.mkRat_eq_div]
      push_cast
      field_simp
      linarith
    have h1 := abs_round1_sub_le A
    have h2 := abs_round1_sub_le B
    have h3 := abs_round1_sub_le C
    have hre : round1 A + round1 B + round1 C - 100 =
        (round1 A - A) + (round1 B - B) + (round1 C - C) := by
      linarith
    rw [hre]
    have t1 := abs_add ((round1 A - A) + (round1 B - B)) (round1 C - C)
    have t2 := abs_add (round1 A - A) (round1 B - B)
    linarith

/-- C5 witness: a concrete non-empty reaction list (one positive, one
negative, one unclassified emoji) satisfies the partition and rounding
bound. -/
theorem group_mood_sentinel_iff_empty_witness :
    ([⟨1, "👍"⟩, ⟨2, "❌"⟩, ⟨3, "meh"⟩] : List ReactionData) ≠ [] ∧
    (([⟨1, "👍"⟩, ⟨2, "❌"⟩, ⟨3, "meh"⟩] : List ReactionData).countP
        fun r => classify_emoji_sentiment r.emoji = "positive") +
      (([⟨1, "👍"⟩, ⟨2, "❌"⟩, ⟨3, "meh"⟩] : List ReactionData).countP
        fun r => classify_emoji_sentiment r.emoji = "negative") +
      (([⟨1, "👍"⟩, ⟨2, "❌"⟩, ⟨3, "meh"⟩] : List ReactionData).countP
        fun r => classify_emoji_sentiment r.emoji = "neutral") =
      ([⟨1, "👍"⟩, ⟨2, "❌"⟩, ⟨3, "meh"⟩] : List ReactionData).length ∧
    |(get_group_mood_core [⟨1, "👍"⟩, ⟨2, "❌"⟩, ⟨3, "meh"⟩]).positive_percentage +
      (get_group_mood_core [⟨1, "👍"⟩, ⟨2, "❌"⟩, ⟨3, "meh"⟩]).negative_percentage +
      (get_group_mood_core [⟨1, "👍"⟩, ⟨2, "❌"⟩, ⟨3, "meh"⟩]).neutral_percentage - 100| ≤ 3 / 20 := by
  have h := (group_mood_sentinel_iff_empty [⟨1, "👍"⟩, ⟨2, "❌"⟩, ⟨3, "meh"⟩]).2 (by decide)
  exact ⟨by decide, h.1, h.2⟩

theorem thresholds_lookup {ac : AutonomousCommentingConfig} {cs : CommenterState}
    {chat : ℤ} {st : ChatState}
    (h : thresholds_in_range ac cs = true)
    (hl : List.lookup chat cs.chat_states = some st) :
    roll_ok ac st.next_comment_threshold = true := by
  unfold thresholds_in_range at h
  exact (List.all_eq_true.mp h) (chat, st) (mem_of_lookup_eq_some hl)

theorem thresholds_dictSet {ac : AutonomousCommentingConfig}
    {l : List (ℤ × ChatState)} {chat : ℤ} {st : ChatState}
    (h : l.all (fun kv => roll_ok ac kv.2.next_comment_threshold) = true)
    (hst : roll_ok ac st.next_comment_threshold = true) :
    (dictSet l chat st).all (fun kv => roll_ok ac kv.2.next_comment_threshold) = true := by
  unfold dictSet
  simp [List.all_cons, h, hst]

theorem get_chat_state_preserves {ac : AutonomousCommentingConfig}
    {cs : CommenterState} {chat croll : ℤ}
    (h : thresholds_in_range ac cs = true) (hc : roll_ok ac croll = true) :
    roll_ok ac (get_chat_state cs chat croll).1.next_comment_threshold = true ∧
    thresholds_in_range ac (get_chat_state cs chat croll).2 = true := by
  unfold get_chat_state
  cases hl : List.lookup chat cs.chat_states with
  | some st =>
      exact ⟨thresholds_lookup h hl, h⟩
  | none =>
      refine ⟨hc, ?_⟩
      unfold thresholds_in_range at h ⊢
      exact thresholds_dictSet h hc

theorem commenter_step_preserves (cfg : YamlConfig) (cs : CommenterState)
    (op : CommenterOp)
    (h : thresholds_in_range cfg.autonomous_commenting cs = true)
    (hop : op_rolls_ok cfg.autonomous_commenting op = true) :
    thresholds_in_range cfg.autonomous_commenting (commenter_step cfg cs op) = true := by
  cases op with
  | add_message chat m croll =>
      have hc : roll_ok cfg.autonomous_commenting croll = true := by
        simpa [op_rolls_ok] using hop
      obtain ⟨h1, h2⟩ :=
        @get_chat_state_preserves cfg.autonomous_commenting cs chat croll h hc
      simp only [commenter_step, add_message]
      unfold thresholds_in_range at h2 ⊢
      exact thresholds_dictSet h2 h1
  | should_comment chat bot now u reroll croll =>
      rw [op_rolls_ok, Bool.and_eq_true] at hop
      obtain ⟨h1, h2⟩ :=
        @get_chat_state_preserves cfg.autonomous_commenting cs chat croll h hop.2
      simp only [commenter_step, should_comment]
      split
      · exact h
      · split
        · exact h
        · split
          · exact h2
          · split
            · exact h2
            · split
              · exact h2
              · split
                · unfold thresholds_in_range at h2 ⊢
                  exact thresholds_dictSet h2 hop.1
                · split
                  · split
                    · exact h2
                    · exact h2
                  · exact h2
  | mark_commented chat now croll reroll =>
      rw [op_rolls_ok, Bool.and_eq_true] at hop
      obtain ⟨h1, h2⟩ :=
        @get_chat_state_preserves cfg.autonomous_commenting cs chat croll h hop.1
      simp only [commenter_step, mark_commented]
      unfold thresholds_in_range at h2 ⊢
      exact thresholds_dictSet h2 hop.2

/-- C4: across any sequence of `add_message`, `should_comment` and
`mark_commented` calls (each `randint` roll landing in the configured
inclusive range, as `randint` guarantees), every chat state's
`next_comment_threshold` stays within
`[min_messages_between_comments, max_messages_between_comments]` — it is
rolled into that range at lazy creation, re-rolled by `mark_commented`,
and re-rolled when a `should_comment` probability draw fails. -/
theorem next_comment_threshold_invariant (cfg : YamlConfig) (cs : CommenterState)
    (ops : List CommenterOp)
    (h0 : thresholds_in_range cfg.autonomous_commenting cs = true)
    (hops : ops.all (op_rolls_ok cfg.autonomous_commenting) = true) :
    thresholds_in_range cfg.autonomous_commenting (commenter_run cfg cs ops) = true := by
  induction ops generalizing cs with
  | nil => simpa [commenter_run] using h0
  | cons op t ih =>
      rw [List.all_cons, Bool.and_eq_true] at hops
      exact ih (commenter_step cfg cs op)
        (commenter_step_preserves cfg cs op h0 hops.1) hops.2

/-- C4 witness: a concrete trace (message, failed-draw `should_comment`,
`mark_commented`) on the default configuration keeps every tracked
threshold inside `[8, 20]`. -/
theorem next_comment_threshold_invariant_witness :
    thresholds_in_range ({} : YamlConfig).autonomous_commenting
      (commenter_run {} {}
        [CommenterOp.add_message 1 {} 10,
         CommenterOp.should_comment 1 2 0 (mkRat 9 10) 12 15,
         CommenterOp.mark_commented 1 0 9 20]) = true :=
  next_comment_threshold_invariant {} {}
    [CommenterOp.add_message 1 {} 10,
     CommenterOp.should_comment 1 2 0 (mkRat 9 10) 12 15,
     CommenterOp.mark_commented 1 0 9 20]
    (by decide) (by decide)

theorem get_chat_state_snd_of_mem {cs : CommenterState} {chat croll : ℤ}
    (h : (List.lookup chat cs.chat_states).isSome = true) :
    (get_chat_state cs chat croll).2 = cs := by
  unfold get_chat_state
  cases hl : List.lookup chat cs.chat_states with
  | some st => simp [hl]
  | none => rw [hl] at h; simp at h

theorem should_comment_true_snd {cfg : YamlConfig} {cs : CommenterState}
    {chat bot : ℤ} {now u : ℚ} {reroll croll : ℤ}
    (h : (should_comment cfg cs chat bot now u reroll croll).1 = true) :
    (should_comment cfg cs chat bot now u reroll croll).2 =
      (get_chat_state cs chat croll).2 := by
  simp only [should_comment] at h ⊢
  repeat' split <;> simp_all

/-- C3: with `use_ai_decision` enabled and `should_comment` returning
true, `check_and_make_autonomous_comment` performs no effect at all: it
calls `should_comment_ai_check`, which `AutonomousCommenter` does not
define, and the resulting `AttributeError` is caught by the handler's
enclosing try/except and only logged — `generate_comment`,
`send_message` and `mark_commented` are never reached, and (for an
already-tracked chat) the chat state is left unchanged. -/
theorem ai_decision_path_sends_nothing (cfg : YamlConfig) (cs : CommenterState)
    (chat_id bot_user_id : ℤ) (now u : ℚ) (reroll croll : ℤ) (ai_check : Bool)
    (gen_result : Option AutonomousComment) (mark_croll mark_reroll : ℤ)
    (hai : cfg.autonomous_commenting.use_ai_decision = true)
    (hsc : (should_comment cfg cs chat_id bot_user_id now u reroll croll).1 = true) :
    check_and_make_autonomous_comment cfg cs chat_id bot_user_id now u reroll croll
        ai_check gen_result mark_croll mark_reroll =
      ((should_comment cfg cs chat_id bot_user_id now u reroll croll).2, []) ∧
    autonomousCommenterAttrs.contains "should_comment_ai_check" = false ∧
    ((List.lookup chat_id cs.chat_states).isSome = true →
      (should_comment cfg cs chat_id bot_user_id now u reroll croll).2 = cs) := by
  have hc : autonomousCommenterAttrs.contains "should_comment_ai_check" = false := by
    decide
  refine ⟨?_, hc, ?_⟩
  · simp only [check_and_make_autonomous_comment, hsc, hai, hc]
    simp
  · intro hsome
    rw [should_comment_true_snd hsc]
    exact get_chat_state_snd_of_mem hsome

/-- C3 witness: at a concrete configuration and tracked chat where every
`should_comment` gate passes, the AI-decision path produces no effects
and leaves the state unchanged. -/
theorem ai_decision_path_sends_nothing_witness :
    check_and_make_autonomous_comment
      { autonomous_commenting :=
          { enabled := true
            min_messages_between_comments := 5
            max_messages_between_comments := 15
            comment_probability := mkRat 1 2
            min_time_between_comments_seconds := 120
            use_intelligent_decision := false
            use_ai_decision := true }
        conversation_monitoring := {}
        excluded_chats := [] }
      { chat_states := [(1,
          { chat_id := 1
            messages_since_last_comment := 10
            last_comment_time := none
            next_comment_threshold := 8 })] }
      1 99 0 (mkRat 1 10) 9 9 true none 9 9 =
    ({ chat_states := [(1,
        { chat_id := 1
          messages_since_last_comment := 10
          last_comment_time := none
          next_comment_threshold := 8 })] }, []) := by
  have h := ai_decision_path_sends_nothing
    { autonomous_commenting :=
        { enabled := true
          min_messages_between_comments := 5
          max_messages_between_comments := 15
          comment_probability := mkRat 1 2
          min_time_between_comments_seconds := 120
          use_intelligent_decision := false
          use_ai_decision := true }
      conversation_monitoring := {}
      excluded_chats := [] }
    { chat_states := [(1,
        { chat_id := 1
          messages_since_last_comment := 10
          last_comment_time := none
          next_comment_threshold := 8 })] }
    1 99 0 (mkRat 1 10) 9 9 true none 9 9 rfl (by with_unfolding_all decide)
  exact h.1.trans
    (congrArg (fun s => (s, ([] : List HandlerEffect))) (h.2.2 (by decide)))

/-- C6 counterexample: a profile whose `relationships` dict has the int
key 42 does not survive save → cache-clear → load field-for-field: the
JSON round trip turns the key into the string "42" and `from_dict` never
converts it back. -/
theorem profile_round_trip_changes_relationships :
    (load_profile (profiles_clear (save_profile
        { profiles := [(1,
            { user_id := 1, relationships := [(PyKey.int 42, "friend")] })]
          disk := [] } 1).1) 1 "t").1 ≠
      { user_id := 1, relationships := [(PyKey.int 42, "friend")] } := by
  with_unfolding_all decide

/-- C6 (amended): saving a cached profile, clearing the cache and loading
it again is field-for-field the identity whenever `relationships` is empty
(in general the round trip stringifies the int keys of `relationships` and
leaves every other field intact). -/
theorem profile_round_trip_amended (pm : ProfileManagerState) (uid : ℤ)
    (p : UserProfile) (now : String)
    (hcache : List.lookup uid pm.profiles = some p)
    (hrel : p.relationships = []) :
    (load_profile (profiles_clear (save_profile pm uid).1) uid now).1 = p := by
  have hrt : profile_json_round_trip p = p := by
    unfold profile_json_round_trip
    rw [hrel]
    cases p
    simp_all
  simp only [save_profile, hcache]
  simp only [profiles_clear, load_profile, dictSet, hrt]
  simp [List.lookup]

/-- C6 witness: a concrete cached profile with empty `relationships`
round-trips to itself. -/
theorem profile_round_trip_amended_witness :
    (load_profile (profiles_clear (save_profile
        { profiles := [(3, { user_id := 3 })], disk := [] } 3).1) 3 "n").1 =
      { user_id := 3 } :=
  profile_round_trip_amended
    { profiles := [(3, { user_id := 3 })], disk := [] } 3
    { user_id := 3 } "n" (by decide) rfl

/-- C7 counterexample: a syntactically valid AI response whose
`technical_weaknesses` value is the non-iterable number 0 leaves the
profile partially updated — the `interests` merge has already landed when
the `TypeError` is raised and swallowed, contradicting atomicity. -/
theorem enrich_merge_partial_update :
    enrich_profile_with_ai (enrich_state_of_profile { user_id := 5 })
        (some [("interests", JValue.arr [JValue.str "x"]),
               ("technical_weaknesses", JValue.num 0)]) ≠
      enrich_state_of_profile { user_id := 5 } := by
  intro h
  have h1 : (enrich_profile_with_ai (enrich_state_of_profile { user_id := 5 })
      (some [("interests", JValue.arr [JValue.str "x"]),
             ("technical_weaknesses", JValue.num 0)])).interests =
      [JValue.str "x"] := rfl
  rw [h] at h1
  simp [enrich_state_of_profile] at h1

/-- C7 (amended): `enrich_profile_with_ai` leaves the profile completely
unchanged when the AI response fails to parse as JSON; but when valid JSON
merging raises mid-way, the fields merged before the raising field keep
their new values (partial merge) — at the counterexample response the
`interests` update survives while `technical_weaknesses` stays untouched. -/
theorem enrich_error_handling :
    (∀ st : EnrichState, enrich_profile_with_ai st none = st) ∧
    (enrich_profile_with_ai (enrich_state_of_profile { user_id := 5 })
        (some [("interests", JValue.arr [JValue.str "x"]),
               ("technical_weaknesses", JValue.num 0)])).interests =
      [JValue.str "x"] ∧
    (enrich_profile_with_ai (enrich_state_of_profile { user_id := 5 })
        (some [("interests", JValue.arr [JValue.str "x"]),
               ("technical_weaknesses", JValue.num 0)])).technical = [] :=
  ⟨fun _ => rfl, rfl, rfl⟩

/-- C9 counterexample: a user whose stored preference is "ru" and who then
sends the purely non-Cyrillic message "hello" still has preference "ru"
afterwards — the code only assigns "en" when the stored preference is the
empty string, not on every non-Cyrillic message. -/
theorem language_heuristic_keeps_ru :
    (List.lookup 7 (update_profile_from_message
        { profiles := [(7, { user_id := 7, language_preference := "ru" })]
          disk := [] }
        { from_user := some { id := 7 }, chat_id := 1, text := some "hello" }
        "t").profiles).map (fun p => p.language_preference) = some "ru" ∧
    ("ru" : String) ≠ "en" := by
  constructor
  · with_unfolding_all decide
  · decide

/-- C9 (amended): for a tracked message with text, the update increments
`message_count` by exactly 1, and the language heuristic sets the
preference to "ru" when the text contains a Cyrillic-range character,
sets it to "en" only when the stored preference was the empty string, and
otherwise leaves it unchanged (the embedding is a pure function: no
network call). -/
theorem language_heuristic_amended (p : UserProfile) (user : TgUser)
    (message : TgMessage) (now : String) (t : String)
    (htext : message.text = some t) :
    (profile_update_step p user message now).message_count = p.message_count + 1 ∧
    (profile_update_step p user message now).language_preference =
      (if t.data.any is_cyrillic_char then "ru"
       else if p.language_preference = "" then "en"
       else p.language_preference) := by
  simp only [profile_update_step, htext]
  repeat' split <;> simp_all

/-- C9 witness: a "ru"-preference profile receiving the Cyrillic message
"привет" gets count 1 and keeps "ru" via the Cyrillic branch. -/
theorem language_heuristic_amended_witness :
    (profile_update_step { user_id := 3, language_preference := "ru" } { id := 3 }
        { from_user := some { id := 3 }, chat_id := 2, text := some "привет" }
        "n").message_count =
      ({ user_id := 3, language_preference := "ru" } : UserProfile).message_count + 1 ∧
    (profile_update_step { user_id := 3, language_preference := "ru" } { id := 3 }
        { from_user := some { id := 3 }, chat_id := 2, text := some "привет" }
        "n").language_preference =
      (if "привет".data.any is_cyrillic_char then "ru"
       else if ({ user_id := 3, language_preference := "ru" } : UserProfile).language_preference = "" then "en"
       else ({ user_id := 3, language_preference := "ru" } : UserProfile).language_preference) :=
  language_heuristic_amended { user_id := 3, language_preference := "ru" } { id := 3 }
    { from_user := some { id := 3 }, chat_id := 2, text := some "привет" }
    "n" "привет" rfl

/-- C8: comment-response parsing feeds `json.loads` the substring from the
first opening brace through the last closing brace (tolerating leading and
trailing prose); `generate_comment` returns `None` when no such braces
exist, when that substring fails to parse, when the parsed object's
`should_comment` is falsy, or when its `comment` is falsy (empty); and on
success the parsed fields map directly into `AutonomousComment`. -/
theorem comment_response_parsing
    (loads : List Char → Option (List (String × JValue))) :
    (∀ r : List Char, r.contains '{' = false →
      generate_comment_from_response loads r = none) ∧
    (∀ r : List Char, r.contains '}' = false →
      generate_comment_from_response loads r = none) ∧
    (∀ r : List Char, loads (candidate_json r) = none →
      generate_comment_from_response loads r = none) ∧
    (∀ (r : List Char) (data : List (String × JValue)),
      loads (candidate_json r) = some data →
      pyTruthyOpt (List.lookup "should_comment" data) = false →
      generate_comment_from_response loads r = none) ∧
    (∀ (r : List Char) (data : List (String × JValue)),
      loads (candidate_json r) = some data →
      pyTruthyOpt (List.lookup "comment" data) = false →
      generate_comment_from_response loads r = none) ∧
    (∀ (r : List Char) (data : List (String × JValue)),
      loads (candidate_json r) = some data →
      pyFind r '{' ≥ 0 →
      pyRfind r '}' + 1 > pyFind r '{' →
      pyTruthyOpt (List.lookup "should_comment" data) = true →
      pyTruthyOpt (List.lookup "comment" data) = true →
      generate_comment_from_response loads r =
        some { text := (List.lookup "comment" data).getD .null
               reply_to_message_id :=
                 (List.lookup "reply_to_message_id" data).getD .null
               target_user_id := (List.lookup "target_user_id" data).getD .null
               comment_type := (List.lookup "type" data).getD (.str "observation") }) := by
  refine ⟨?_, ?_, ?_, ?_, ?_, ?_⟩
  · intro r h
    have hf := pyFind_eq_neg_one h
    have hp : parse_comment_response loads r = none := by
      unfold parse_comment_response
      rw [hf]
      rw [if_neg]
      intro hcond
      exact absurd hcond.1 (by norm_num)
    unfold generate_comment_from_response
    rw [hp]
  · intro r h
    have hf := pyRfind_eq_neg_one h
    have hp : parse_comment_response loads r = none := by
      unfold parse_comment_response
      rw [hf]
      rw [if_neg]
      intro hcond
      omega
    unfold generate_comment_from_response
    rw [hp]
  · intro r h
    unfold candidate_json at h
    have hp : parse_comment_response loads r = none := by
      by_cases hcond : pyFind r '{' ≥ 0 ∧ pyRfind r '}' + 1 > pyFind r '{'
      · simp [parse_comment_response, hcond, h]
      · simp [parse_comment_response, hcond]
    unfold generate_comment_from_response
    rw [hp]
  · intro r data hl hsc
    unfold candidate_json at hl
    have hp : parse_comment_response loads r = none := by
      by_cases hcond : pyFind r '{' ≥ 0 ∧ pyRfind r '}' + 1 > pyFind r '{'
      · simp [parse_comment_response, hcond, hl, hsc]
      · simp [parse_comment_response, hcond]
    unfold generate_comment_from_response
    rw [hp]
  · intro r data hl hcm
    unfold candidate_json at hl
    have hp : parse_comment_response loads r = none := by
      by_cases hcond : pyFind r '{' ≥ 0 ∧ pyRfind r '}' + 1 > pyFind r '{'
      · simp [parse_comment_response, hcond, hl, hcm]
      · simp [parse_comment_response, hcond]
    unfold generate_comment_from_response
    rw [hp]
  · intro r data hl hfind hgt hsc hcm
    unfold candidate_json at hl
    have hp : parse_comment_response loads r = some data := by
      simp [parse_comment_response, hfind, hgt, hl, hsc, hcm]
    unfold generate_comment_from_response
    rw [hp]

/-- C8 witness: a response with prose around a JSON object parses into the
mapped `AutonomousComment`, and a brace-free response yields `None`. -/
theorem comment_response_parsing_witness :
    generate_comment_from_response
      (fun s => if s = ("\x7bok\x7d").data then
        some [("should_comment", JValue.bool true), ("comment", JValue.str "hi")]
      else none)
      ("say \x7bok\x7d now").data =
      some { text := JValue.str "hi"
             reply_to_message_id := JValue.null
             target_user_id := JValue.null
             comment_type := JValue.str "observation" } ∧
    generate_comment_from_response
      (fun s => if s = ("\x7bok\x7d").data then
        some [("should_comment", JValue.bool true), ("comment", JValue.str "hi")]
      else none)
      ("no braces").data = none := by
  constructor
  · exact (comment_response_parsing _).2.2.2.2.2 (("say \x7bok\x7d now").data)
      [("should_comment", JValue.bool true), ("comment", JValue.str "hi")]
      (by with_unfolding_all rfl) (by decide)
      (by decide) (by decide) (by decide)
  · exact (comment_response_parsing _).1 (("no braces").data) (by decide)

end TgBot
